import Mathlib

/-!
# Copernicus: signature-encoding validator and script-error taxonomy

A shallow embedding of

* `core/ECDSASignature.go` : `IsValidSignatureEncoding`
* `crypto/scripterror.go`  : `ScriptError`, `ScriptErrorString`, `ErrDesc`, `ScriptErr`
* `algorithm/Stack.go`     : `Stack`, `PushStack`, `PopStack`, `Last`, `StackTop`

Go's `byte` is modelled as `Fin 256`; every arithmetic expression the source
evaluates at type `byte` is written over `Nat` with an explicit `% 256`.
A slice index expression that falls outside the slice is a run-time panic in
Go; the embedding makes that outcome explicit as `GoResult.panic`, and as
`StackRun.indexPanic` where the index is a signed `int`.
-/

namespace Copernicus

/-! ## Go run-time model -/

/-- One Go `byte`. -/
abbrev Byte := Fin 256

/-- The run-time error raised by a slice index expression `s[i]` with `i ≥ len(s)`. -/
structure IndexOutOfRange where
  index : Nat
  length : Nat
deriving DecidableEq, Repr

/-- Outcome of running a Go function body: it returns a value, or it panics. -/
inductive GoResult (α : Type) where
  | ret : α → GoResult α
  | panic : IndexOutOfRange → GoResult α
deriving DecidableEq, Repr

namespace GoResult

/-- Sequencing: a panic aborts everything that follows. -/
def bind {α β : Type} (x : GoResult α) (f : α → GoResult β) : GoResult β :=
  match x with
  | ret a => f a
  | panic e => panic e

/-- Go's short-circuit `a && b`: `b` is evaluated only when `a` is true. -/
def and (a b : GoResult Bool) : GoResult Bool :=
  a.bind fun x => if x then b else ret false

end GoResult

open GoResult

/-- The slice index expression `signs[i]`, read as a number in `0..255`. -/
def index (signs : List Byte) (i : Nat) : GoResult Nat :=
  match signs[i]? with
  | some v => ret v.val
  | none => panic ⟨i, signs.length⟩

/-! ## `core/ECDSASignature.go` -/

/-- The function `IsValidSignatureEncoding` of `core/ECDSASignature.go`, statement by
statement.  `lenR` and `lenS` are Go `byte`s, so `5+lenR`, `lenR+lenS+7`,
`lenR+4`, `lenR+6` and `lenR+7` wrap at 256; comparisons against `signsLen`
happen after conversion to `int`. -/
def IsValidSignatureEncoding (signs : List Byte) : GoResult Bool :=
  let signsLen : Int := signs.length
  if signsLen < 9 then ret false else
  if signsLen > 73 then ret false else
  (index signs 0).bind fun s0 =>
  if s0 ≠ 0x30 then ret false else
  (index signs 1).bind fun s1 =>
  if (s1 : Int) ≠ signsLen - 3 then ret false else
  (index signs 3).bind fun lenR =>
  if (((5 + lenR) % 256 : Nat) : Int) ≥ signsLen then ret false else
  (index signs ((5 + lenR) % 256)).bind fun lenS =>
  if ((((lenR + lenS) % 256 + 7) % 256 : Nat) : Int) ≠ signsLen then ret false else
  (index signs 2).bind fun s2 =>
  if s2 ≠ 0x02 then ret false else
  if lenR = 0 then ret false else
  (index signs 4).bind fun s4 =>
  if s4 &&& 0x80 = 1 then ret false else
  (GoResult.and (ret (decide (lenR > 1)))
    (GoResult.and ((index signs 4).bind fun a => ret (decide (a = 0x00)))
      ((index signs 5).bind fun a => ret (decide (a &&& 0x80 ≠ 1))))).bind fun padR =>
  if padR then ret false else
  (index signs ((lenR + 4) % 256)).bind fun tagS =>
  if tagS ≠ 0x02 then ret false else
  if lenS = 0 then ret false else
  (index signs ((lenR + 6) % 256)).bind fun t0 =>
  if t0 &&& 0x80 = 1 then ret false else
  (GoResult.and (ret (decide (lenS > 1)))
    (GoResult.and ((index signs ((lenR + 6) % 256)).bind fun a => ret (decide (a = 0x00)))
      ((index signs ((lenR + 7) % 256)).bind fun a => ret (decide (a &&& 0x80 ≠ 1))))).bind fun padS =>
  if padS then ret false else
  ret true

/-- Total read used in proofs: the byte at offset `i`, or 0 past the end. -/
def byteAt (signs : List Byte) (i : Nat) : Nat := (signs.getD i 0).val


/-- The decision tree of `IsValidSignatureEncoding` over the values it reads:
`len` is `len(signs)`, `b0 b1 b2 b4` the bytes at offsets 0, 1, 2, 4, `lenR` the
byte at offset 3, `o5 o4 o6` the wrapped offsets `5+lenR`, `lenR+4`, `lenR+6`,
`lenS tagS t0` the bytes at those offsets and `total` the wrapped sum
`lenR+lenS+7`.  The two `panic` leaves are the index expressions `signs[lenR+4]`
and `signs[lenR+6]` evaluated with an offset past the end. -/
def verdict (len b0 b1 b2 lenR b4 o5 lenS total o4 tagS o6 t0 : Nat) : GoResult Bool :=
  if len < 9 then ret false else
  if 73 < len then ret false else
  if b0 ≠ 0x30 then ret false else
  if b1 + 3 ≠ len then ret false else
  if len ≤ o5 then ret false else
  if total ≠ len then ret false else
  if b2 ≠ 0x02 then ret false else
  if lenR = 0 then ret false else
  if 1 < lenR ∧ b4 = 0 then ret false else
  if len ≤ o4 then panic ⟨o4, len⟩ else
  if tagS ≠ 0x02 then ret false else
  if lenS = 0 then ret false else
  if len ≤ o6 then panic ⟨o6, len⟩ else
  if 1 < lenS ∧ t0 = 0 then ret false else
  ret true

/-! ### The written algorithm and the properties stated about it -/

/-- The validator as the specification words it (steps 1 to 14 of the algorithm),
with lengths and offsets as natural numbers and "sign bit set" read as `≥ 0x80`. -/
def specIsValidSignatureEncoding (b : List Byte) : Bool :=
  let lenR := byteAt b 3
  let lenS := byteAt b (5 + lenR)
  if b.length < 9 ∨ 73 < b.length then false else
  if byteAt b 0 ≠ 0x30 then false else
  if ((byteAt b 1 : Nat) : Int) ≠ (b.length : Int) - 3 then false else
  if 5 + lenR ≥ b.length then false else
  if lenR + lenS + 7 ≠ b.length then false else
  if byteAt b 2 ≠ 0x02 then false else
  if lenR = 0 then false else
  if 0x80 ≤ byteAt b 4 then false else
  if 1 < lenR ∧ byteAt b 4 = 0x00 ∧ ¬ (0x80 ≤ byteAt b 5) then false else
  if byteAt b (lenR + 4) ≠ 0x02 then false else
  if lenS = 0 then false else
  if 0x80 ≤ byteAt b (lenR + 6) then false else
  if 1 < lenS ∧ byteAt b (lenR + 6) = 0x00 ∧ ¬ (0x80 ≤ byteAt b (lenR + 7)) then false else
  true

/-- R carries a redundant zero pad: its declared length exceeds 1, its first byte
is 0x00 and its second byte is below 0x80, all three bytes lying inside `b`. -/
def RedundantPadR (b : List Byte) : Prop :=
  5 < b.length ∧ 1 < byteAt b 3 ∧ byteAt b 4 = 0x00 ∧ byteAt b 5 < 0x80

/-- S carries a redundant zero pad, with the offsets `5+lenR`, `lenR+6`, `lenR+7`
taken through `off`: the identity for offsets as written, `· % 256` for offsets
as the code computes them. -/
def RedundantPadS (off : Nat → Nat) (b : List Byte) : Prop :=
  3 < b.length ∧ off (5 + byteAt b 3) < b.length ∧ off (byteAt b 3 + 6) < b.length ∧
    off (byteAt b 3 + 7) < b.length ∧ 1 < byteAt b (off (5 + byteAt b 3)) ∧
    byteAt b (off (byteAt b 3 + 6)) = 0x00 ∧ byteAt b (off (byteAt b 3 + 7)) < 0x80

/-- The bytes `30 45 02 21 00 R 02 20 S 01` of the concrete scenario. -/
def scenarioSignature (R S : List Byte) : List Byte :=
  [0x30, 0x45, 0x02, 0x21, 0x00] ++ R ++ [0x02, 0x20] ++ S ++ [0x01]

/-! ## `crypto/scripterror.go` -/

/-- The Go type `ScriptError` is `int`; every integer is a possible code. -/
abbrev ScriptError := Int

/-- Enumerator number 0 of the `const` block (`iota` = 0). -/
abbrev ScriptErrOK : ScriptError := 0

/-- Enumerator number 1 of the `const` block (`iota` = 1). -/
abbrev ScriptErrUnknownError : ScriptError := 1

/-- Enumerator number 2 of the `const` block (`iota` = 2). -/
abbrev ScriptErrEvalFalse : ScriptError := 2

/-- Enumerator number 3 of the `const` block (`iota` = 3). -/
abbrev ScriptErrOpReturn : ScriptError := 3

/-- Enumerator number 4 of the `const` block (`iota` = 4). -/
abbrev ScriptErrScriptSize : ScriptError := 4

/-- Enumerator number 5 of the `const` block (`iota` = 5). -/
abbrev ScriptErrPushSize : ScriptError := 5

/-- Enumerator number 6 of the `const` block (`iota` = 6). -/
abbrev ScriptErrOpCount : ScriptError := 6

/-- Enumerator number 7 of the `const` block (`iota` = 7). -/
abbrev ScriptErrStackSize : ScriptError := 7

/-- Enumerator number 8 of the `const` block (`iota` = 8). -/
abbrev ScriptErrSigCount : ScriptError := 8

/-- Enumerator number 9 of the `const` block (`iota` = 9). -/
abbrev ScriptErrPubKeyCount : ScriptError := 9

/-- Enumerator number 10 of the `const` block (`iota` = 10). -/
abbrev ScriptErrVerify : ScriptError := 10

/-- Enumerator number 11 of the `const` block (`iota` = 11). -/
abbrev ScriptErrEqualVerify : ScriptError := 11

/-- Enumerator number 12 of the `const` block (`iota` = 12). -/
abbrev ScriptErrCheckMultiSigVerify : ScriptError := 12

/-- Enumerator number 13 of the `const` block (`iota` = 13). -/
abbrev ScriptErrCheckSigVerify : ScriptError := 13

/-- Enumerator number 14 of the `const` block (`iota` = 14). -/
abbrev ScriptErrNumEqualVerify : ScriptError := 14

/-- Enumerator number 15 of the `const` block (`iota` = 15). -/
abbrev ScriptErrBadOpCode : ScriptError := 15

/-- Enumerator number 16 of the `const` block (`iota` = 16). -/
abbrev ScriptErrDisabledOpCode : ScriptError := 16

/-- Enumerator number 17 of the `const` block (`iota` = 17). -/
abbrev ScriptErrInvalidStackOperation : ScriptError := 17

/-- Enumerator number 18 of the `const` block (`iota` = 18). -/
abbrev ScriptErrInvalidAltStackOperation : ScriptError := 18

/-- Enumerator number 19 of the `const` block (`iota` = 19). -/
abbrev ScriptErrUnbalancedConditional : ScriptError := 19

/-- Enumerator number 20 of the `const` block (`iota` = 20). -/
abbrev ScriptErrNegativeLockTime : ScriptError := 20

/-- Enumerator number 21 of the `const` block (`iota` = 21). -/
abbrev ScriptErrUnsatisfiedLockTime : ScriptError := 21

/-- Enumerator number 22 of the `const` block (`iota` = 22). -/
abbrev ScriptErrSigHashType : ScriptError := 22

/-- Enumerator number 23 of the `const` block (`iota` = 23). -/
abbrev ScriptErrSigDer : ScriptError := 23

/-- Enumerator number 24 of the `const` block (`iota` = 24). -/
abbrev ScriptErrMinimalData : ScriptError := 24

/-- Enumerator number 25 of the `const` block (`iota` = 25). -/
abbrev ScriptErrSigPushOnly : ScriptError := 25

/-- Enumerator number 26 of the `const` block (`iota` = 26). -/
abbrev ScriptErrSigHighs : ScriptError := 26

/-- Enumerator number 27 of the `const` block (`iota` = 27). -/
abbrev ScriptErrSigNullDummy : ScriptError := 27

/-- Enumerator number 28 of the `const` block (`iota` = 28). -/
abbrev ScriptErrPubKeyType : ScriptError := 28

/-- Enumerator number 29 of the `const` block (`iota` = 29). -/
abbrev ScriptErrCleanStack : ScriptError := 29

/-- Enumerator number 30 of the `const` block (`iota` = 30). -/
abbrev ScriptErrMinimalIf : ScriptError := 30

/-- Enumerator number 31 of the `const` block (`iota` = 31). -/
abbrev ScriptErrSigNullFail : ScriptError := 31

/-- Enumerator number 32 of the `const` block (`iota` = 32). -/
abbrev ScriptErrDiscourageUpgradableNOPs : ScriptError := 32

/-- Enumerator number 33 of the `const` block (`iota` = 33). -/
abbrev ScriptErrDiscourageUpgradableWitnessProgram : ScriptError := 33

/-- Enumerator number 34 of the `const` block (`iota` = 34). -/
abbrev ScriptErrWitnessProgramWrongLength : ScriptError := 34

/-- Enumerator number 35 of the `const` block (`iota` = 35). -/
abbrev ScriptErrWitnessProgramWitnessEmpty : ScriptError := 35

/-- Enumerator number 36 of the `const` block (`iota` = 36). -/
abbrev ScriptErrWitnessProgramMismatch : ScriptError := 36

/-- Enumerator number 37 of the `const` block (`iota` = 37). -/
abbrev ScriptErrWitnessMallRated : ScriptError := 37

/-- Enumerator number 38 of the `const` block (`iota` = 38). -/
abbrev ScriptErrWitnessMallRatedP2SH : ScriptError := 38

/-- Enumerator number 39 of the `const` block (`iota` = 39). -/
abbrev ScriptErrWitnessUnexpected : ScriptError := 39

/-- Enumerator number 40 of the `const` block (`iota` = 40). -/
abbrev ScriptErrWitnessPubKeyType : ScriptError := 40

/-- Enumerator number 41 of the `const` block (`iota` = 41). -/
abbrev ScriptErrErrorCount : ScriptError := 41

/-- Enumerator number 42 of the `const` block (`iota` = 42). -/
abbrev ScriptErrNonCompressedPubKey : ScriptError := 42

/-- The enumerators of the `const` block, in declaration order. -/
def definedCodes : List ScriptError :=
  [ScriptErrOK, ScriptErrUnknownError, ScriptErrEvalFalse,
   ScriptErrOpReturn, ScriptErrScriptSize, ScriptErrPushSize,
   ScriptErrOpCount, ScriptErrStackSize, ScriptErrSigCount,
   ScriptErrPubKeyCount, ScriptErrVerify, ScriptErrEqualVerify,
   ScriptErrCheckMultiSigVerify, ScriptErrCheckSigVerify, ScriptErrNumEqualVerify,
   ScriptErrBadOpCode, ScriptErrDisabledOpCode, ScriptErrInvalidStackOperation,
   ScriptErrInvalidAltStackOperation, ScriptErrUnbalancedConditional, ScriptErrNegativeLockTime,
   ScriptErrUnsatisfiedLockTime, ScriptErrSigHashType, ScriptErrSigDer,
   ScriptErrMinimalData, ScriptErrSigPushOnly, ScriptErrSigHighs,
   ScriptErrSigNullDummy, ScriptErrPubKeyType, ScriptErrCleanStack,
   ScriptErrMinimalIf, ScriptErrSigNullFail, ScriptErrDiscourageUpgradableNOPs,
   ScriptErrDiscourageUpgradableWitnessProgram, ScriptErrWitnessProgramWrongLength, ScriptErrWitnessProgramWitnessEmpty,
   ScriptErrWitnessProgramMismatch, ScriptErrWitnessMallRated, ScriptErrWitnessMallRatedP2SH,
   ScriptErrWitnessUnexpected, ScriptErrWitnessPubKeyType, ScriptErrErrorCount,
   ScriptErrNonCompressedPubKey]

/-- The function `ScriptErrorString`: the `switch` compares the code with each `case` in
source order; the two empty cases and `default` leave the switch and reach the
final `return "unknown error"`. -/
def ScriptErrorString (scriptError : ScriptError) : String :=
  if scriptError = ScriptErrOK then
    "No error" else
  if scriptError = ScriptErrEvalFalse then
    "Script evaluated without error but finished with a false/empty top stack element" else
  if scriptError = ScriptErrVerify then
    "Script failed an OP_VERIFY operation" else
  if scriptError = ScriptErrEqualVerify then
    "Script failed an OP_EQUALVERIFY operation" else
  if scriptError = ScriptErrCheckMultiSigVerify then
    "Script failed an OP_CHECKMULTISIGVERIFY operation" else
  if scriptError = ScriptErrCheckSigVerify then
    "Script failed an OP_CHECKSIGVERIFY operation" else
  if scriptError = ScriptErrNumEqualVerify then
    "Script failed an OP_NUMEQUALVERIFY operation" else
  if scriptError = ScriptErrScriptSize then
    "Script is too big" else
  if scriptError = ScriptErrPushSize then
    "Push value size limit exceeded" else
  if scriptError = ScriptErrOpCount then
    "Operation limit exceeded" else
  if scriptError = ScriptErrStackSize then
    "Stack size limit exceeded" else
  if scriptError = ScriptErrSigCount then
    "Signature count negative or greater than pubKey count" else
  if scriptError = ScriptErrPubKeyCount then
    "PubKey count negative or limit exceeded" else
  if scriptError = ScriptErrBadOpCode then
    "OpCode missing or not understood" else
  if scriptError = ScriptErrDisabledOpCode then
    "Attempted to use a disabled opCode" else
  if scriptError = ScriptErrInvalidStackOperation then
    "Operation not valid with the current stack size" else
  if scriptError = ScriptErrInvalidAltStackOperation then
    "Operation not valid with the current altStack size" else
  if scriptError = ScriptErrOpReturn then
    "OP_RETURN was encountered" else
  if scriptError = ScriptErrUnbalancedConditional then
    "Invalid OP_IF construction" else
  if scriptError = ScriptErrNegativeLockTime then
    "Negative lockTime" else
  if scriptError = ScriptErrUnsatisfiedLockTime then
    "LockTime requirement not satisfied" else
  if scriptError = ScriptErrSigHashType then
    "Signature hash type missing or not understood" else
  if scriptError = ScriptErrSigDer then
    "Non-canonical DER signature" else
  if scriptError = ScriptErrMinimalData then
    "Data push larger than necessary" else
  if scriptError = ScriptErrSigPushOnly then
    "Only non-push operators allowed in signatures" else
  if scriptError = ScriptErrSigHighs then
    "Non-canonical signature: S value is unnecessarily high" else
  if scriptError = ScriptErrSigNullDummy then
    "Dummy CheckMultiSig argument must be zero" else
  if scriptError = ScriptErrMinimalIf then
    "OP_IF/NOTIF argument must be minimal" else
  if scriptError = ScriptErrSigNullFail then
    "Signature must be zero for failed CHECK(MULTI)SIG operation" else
  if scriptError = ScriptErrDiscourageUpgradableNOPs then
    "NOPx reserved for soft-fork upgrades" else
  if scriptError = ScriptErrDiscourageUpgradableWitnessProgram then
    "Witness version reserved for soft-fork upgrades" else
  if scriptError = ScriptErrPubKeyType then
    "Public key is neither compressed or uncompressed" else
  if scriptError = ScriptErrWitnessProgramWrongLength then
    "Witness program has incorrect length" else
  if scriptError = ScriptErrWitnessProgramWitnessEmpty then
    "Witness program was passed an empty witness" else
  if scriptError = ScriptErrWitnessProgramMismatch then
    "Witness program hash mismatch" else
  if scriptError = ScriptErrWitnessMallRated then
    "Witness requires empty scriptSig" else
  if scriptError = ScriptErrWitnessMallRatedP2SH then
    "Witness requires only-redeemScript scriptSig" else
  if scriptError = ScriptErrWitnessUnexpected then
    "Witness provided for non-witness script" else
  if scriptError = ScriptErrWitnessPubKeyType then
    "Using non-compressed keys in segWit" else
  if scriptError = ScriptErrUnknownError then
    "unknown error" else
  if scriptError = ScriptErrErrorCount then
    "unknown error" else
  "unknown error"

/-- The struct `ErrDesc`. -/
structure ErrDesc where
  Code : ScriptError
  Desc : String
deriving DecidableEq, Repr

/-- An operand of `fmt.Sprintf`. -/
inductive FmtArg where
  | str : String → FmtArg
  | int : Int → FmtArg

/-- The verb `%d` applied to an `int`: a minus sign for a negative number, then the
decimal digits of the magnitude. -/
def formatDecimal (i : Int) : List Char :=
  if i < 0 then '-' :: Nat.toDigits 10 i.natAbs else Nat.toDigits 10 i.toNat

/-- The fragment of `fmt.Sprintf` the repository uses: literal text is copied, `%s`
consumes a string operand and `%d` an integer operand.  Any other verb, a
missing, surplus or wrongly typed operand is outside the fragment (`none`). -/
def Sprintf : List Char → List FmtArg → Option (List Char)
  | [], [] => some []
  | [], _ :: _ => none
  | '%' :: 's' :: rest, FmtArg.str s :: args => (Sprintf rest args).map fun t => s.data ++ t
  | '%' :: 'd' :: rest, FmtArg.int i :: args =>
      (Sprintf rest args).map fun t => formatDecimal i ++ t
  | '%' :: _, _ => none
  | c :: rest, args => (Sprintf rest args).map fun t => c :: t

/-- The method `(*ErrDesc).Error`. -/
def ErrDesc.Error (e : ErrDesc) : Option String :=
  (Sprintf "script error :%s code:%d".data [FmtArg.str e.Desc, FmtArg.int e.Code]).map String.mk

/-- The function `ScriptErr`. -/
def ScriptErr (scriptError : ScriptError) : ErrDesc :=
  let str := ScriptErrorString scriptError
  { Code := scriptError, Desc := str }

/-! ### Properties stated about the validator's inputs -/

/-- Two inputs have the same length and the same bytes at every offset the DER
frame names: 0 to 3, the first two bytes of R (4, 5), the S tag (`lenR+4`), the
S length (`5+lenR`) and the first two bytes of S (`lenR+6`, `lenR+7`), with
`lenR` the byte at offset 3.  The offsets go through `off`: the identity for
offsets as written, `· % 256` for offsets as the code computes them. -/
def AgreeOnFrame (off : Nat → Nat) (b b' : List Byte) : Prop :=
  b.length = b'.length ∧
    byteAt b 0 = byteAt b' 0 ∧ byteAt b 1 = byteAt b' 1 ∧ byteAt b 2 = byteAt b' 2 ∧
    byteAt b 3 = byteAt b' 3 ∧ byteAt b 4 = byteAt b' 4 ∧ byteAt b 5 = byteAt b' 5 ∧
    byteAt b (off (5 + byteAt b 3)) = byteAt b' (off (5 + byteAt b 3)) ∧
    byteAt b (off (byteAt b 3 + 4)) = byteAt b' (off (byteAt b 3 + 4)) ∧
    byteAt b (off (byteAt b 3 + 6)) = byteAt b' (off (byteAt b 3 + 6)) ∧
    byteAt b (off (byteAt b 3 + 7)) = byteAt b' (off (byteAt b 3 + 7))

/-! ## `algorithm/Stack.go` -/

/-- A Go `error` result: `none` is `nil`, `some msg` an error carrying that message. -/
abbrev GoError := Option String

/-- The struct `Stack`.  An element is a Go `interface{}` value: `none` is the `nil`
interface, `some v` a non-nil value with payload `v`. -/
structure Stack (α : Type) where
  array : List (Option α)
deriving DecidableEq, Repr

/-- Outcome of a method whose index expression is a signed `int`: it returns, or the
index expression `s.array[index]` panics (index negative or not below the length). -/
inductive StackRun (β : Type) where
  | done : β → StackRun β
  | indexPanic : Int → Nat → StackRun β
deriving DecidableEq, Repr

/-- The value of an `int` expression on a 64-bit platform: two's complement wrap. -/
def int64 (x : Int) : Int := (x + 2 ^ 63) % 2 ^ 64 - 2 ^ 63

/-- The function `NewStack`. -/
def NewStack {α : Type} : Stack α := { array := [] }

/-- The method `Size`. -/
def Stack.Size {α : Type} (s : Stack α) : Int := s.array.length

/-- The method `Empty`. -/
def Stack.Empty {α : Type} (s : Stack α) : Bool := decide (s.array.length = 0)

/-- The method `PushStack`: `append` puts the value after the last element. -/
def Stack.PushStack {α : Type} (s : Stack α) (value : Option α) : Stack α :=
  { array := s.array ++ [value] }

/-- The method `PopStack`: the returned pair and the stack afterwards.  The slice is
shortened before the popped element is compared with `nil`. -/
def Stack.PopStack {α : Type} (s : Stack α) : (Option α × GoError) × Stack α :=
  if h : s.array.length = 0 then
    ((none, some "stack is empty"), s)
  else
    let e := s.array.get ⟨s.array.length - 1, by omega⟩
    let s1 : Stack α := { array := s.array.take (s.array.length - 1) }
    match e with
    | some v => ((some v, none), s1)
    | none => ((none, some "value is nil"), s1)

/-- The method `Last`. -/
def Stack.Last {α : Type} (s : Stack α) : Option α :=
  if h : s.array.length = 0 then none
  else s.array.get ⟨s.array.length - 1, by omega⟩

/-- The method `StackTop`.  The only guard is `stackLen+i > stackLen-1`; below it the
index expression `s.array[stackLen+i]` is evaluated, which panics when
`stackLen+i` is negative.  The error text is `Errorf` with the verb `%d`. -/
def Stack.StackTop {α : Type} (s : Stack α) (i : Int) : StackRun (Option α × GoError) :=
  let stackLen : Int := s.array.length
  if int64 (stackLen + i) > stackLen - 1 then
    StackRun.done (none, some (String.mk
      ("the index exceeds the boundary :".data ++ formatDecimal (int64 (stackLen + i)))))
  else if int64 (stackLen + i) < 0 then
    StackRun.indexPanic (int64 (stackLen + i)) s.array.length
  else
    match s.array[(int64 (stackLen + i)).toNat]? with
    | some e => StackRun.done (e, none)
    | none => StackRun.indexPanic (int64 (stackLen + i)) s.array.length

/-! ## Run-time model: basic facts -/

theorem GoResult.bind_ret {α β : Type} (a : α) (f : α → GoResult β) :
    (ret a).bind f = f a := rfl

theorem GoResult.bind_panic {α β : Type} (e : IndexOutOfRange) (f : α → GoResult β) :
    (panic e : GoResult α).bind f = panic e := rfl

theorem GoResult.and_ret_true (b : GoResult Bool) : GoResult.and (ret true) b = b := rfl

theorem GoResult.and_ret_false (b : GoResult Bool) :
    GoResult.and (ret false) b = ret false := rfl


theorem index_eq_ite (signs : List Byte) (i : Nat) :
    index signs i =
      if i < signs.length then ret (byteAt signs i) else panic ⟨i, signs.length⟩ := by
  unfold index byteAt
  by_cases h : i < signs.length
  · simp [h, List.getD_eq_getElem?_getD]
  · have h2 : signs.length ≤ i := by omega
    simp [h, List.getElem?_eq_none h2]

theorem index_of_lt (signs : List Byte) (i : Nat) (h : i < signs.length) :
    index signs i = ret (byteAt signs i) := by
  rw [index_eq_ite, if_pos h]

theorem index_of_le (signs : List Byte) (i : Nat) (h : signs.length ≤ i) :
    index signs i = panic ⟨i, signs.length⟩ := by
  rw [index_eq_ite, if_neg (by omega)]

theorem byteAt_lt (signs : List Byte) (i : Nat) : byteAt signs i < 256 := by
  unfold byteAt
  exact (signs.getD i 0).isLt

theorem land_0x80_ne_one (x : Nat) : x &&& 0x80 ≠ 1 := by
  intro h
  have h2 := congrArg (fun n => n.testBit 0) h
  simp [Nat.testBit_and] at h2

theorem bind_ite {α β : Type} (c : Prop) [Decidable c] (x y : GoResult α)
    (f : α → GoResult β) :
    (if c then x else y).bind f = if c then x.bind f else y.bind f := by
  split <;> rfl

theorem and_ite (c : Prop) [Decidable c] (x y b : GoResult Bool) :
    GoResult.and (if c then x else y) b = if c then GoResult.and x b else GoResult.and y b := by
  split <;> rfl

theorem and_ret (v : Bool) (b : GoResult Bool) :
    GoResult.and (ret v) b = if v = true then b else ret false := by
  cases v <;> rfl

theorem and_panic (e : IndexOutOfRange) (b : GoResult Bool) :
    GoResult.and (panic e) b = panic e := rfl

theorem IsValidSignatureEncoding_normal (signs : List Byte) :
    IsValidSignatureEncoding signs =
      if signs.length < 9 then ret false else
      if 73 < signs.length then ret false else
      if byteAt signs 0 ≠ 0x30 then ret false else
      if byteAt signs 1 + 3 ≠ signs.length then ret false else
      if signs.length ≤ (5 + byteAt signs 3) % 256 then ret false else
      if ((byteAt signs 3 + byteAt signs ((5 + byteAt signs 3) % 256)) % 256 + 7) % 256
          ≠ signs.length then ret false else
      if byteAt signs 2 ≠ 0x02 then ret false else
      if byteAt signs 3 = 0 then ret false else
      if 1 < byteAt signs 3 ∧ byteAt signs 4 = 0 then ret false else
      if signs.length ≤ (byteAt signs 3 + 4) % 256 then
        panic ⟨(byteAt signs 3 + 4) % 256, signs.length⟩ else
      if byteAt signs ((byteAt signs 3 + 4) % 256) ≠ 0x02 then ret false else
      if byteAt signs ((5 + byteAt signs 3) % 256) = 0 then ret false else
      if signs.length ≤ (byteAt signs 3 + 6) % 256 then
        panic ⟨(byteAt signs 3 + 6) % 256, signs.length⟩ else
      if 1 < byteAt signs ((5 + byteAt signs 3) % 256)
          ∧ byteAt signs ((byteAt signs 3 + 6) % 256) = 0 then ret false else
      ret true := by
  unfold IsValidSignatureEncoding
  dsimp only
  by_cases h1 : signs.length < 9
  · have e1 : ((signs.length : Nat) : Int) < 9 := by omega
    simp only [if_pos h1, if_pos e1]
  have e1 : ¬ (((signs.length : Nat) : Int) < 9) := by omega
  simp only [if_neg h1, if_neg e1]
  by_cases h2 : 73 < signs.length
  · have e2 : ((signs.length : Nat) : Int) > 73 := by omega
    simp only [if_pos h2, if_pos e2]
  have e2 : ¬ (((signs.length : Nat) : Int) > 73) := by omega
  simp only [if_neg h2, if_neg e2]
  simp only [index_of_lt signs 0 (by omega), index_of_lt signs 1 (by omega),
    index_of_lt signs 2 (by omega), index_of_lt signs 3 (by omega),
    index_of_lt signs 4 (by omega), index_of_lt signs 5 (by omega),
    GoResult.bind_ret, land_0x80_ne_one, if_false, and_ret, decide_eq_true_eq, ne_eq,
    not_false_eq_true, decide_True, if_true]
  by_cases h3 : byteAt signs 0 = 48
  swap
  · simp only [if_pos h3]
  simp only [h3, not_true_eq_false, if_false]
  by_cases h4 : byteAt signs 1 + 3 = signs.length
  swap
  · have e4 : ¬ ((byteAt signs 1 : Int) = (signs.length : Int) - 3) := by omega
    simp only [if_pos h4, if_pos e4]
  have e4 : (byteAt signs 1 : Int) = (signs.length : Int) - 3 := by omega
  simp only [h4, e4, not_true_eq_false, if_false]
  by_cases h5 : signs.length ≤ (5 + byteAt signs 3) % 256
  · have e5 : (((5 + byteAt signs 3) % 256 : Nat) : Int) ≥ (signs.length : Int) := by omega
    simp only [if_pos h5, if_pos e5]
  have e5 : ¬ ((((5 + byteAt signs 3) % 256 : Nat) : Int) ≥ (signs.length : Int)) := by omega
  simp only [if_neg h5, if_neg e5, index_of_lt signs _ (Nat.lt_of_not_le h5), GoResult.bind_ret]
  by_cases h6 : ((byteAt signs 3 + byteAt signs ((5 + byteAt signs 3) % 256)) % 256 + 7) % 256
      = signs.length
  swap
  · have e6 : ¬ ((((byteAt signs 3 + byteAt signs ((5 + byteAt signs 3) % 256)) % 256 + 7) % 256
        : Nat) : Int) = (signs.length : Int) := by omega
    simp only [if_pos h6, if_pos e6]
  have e6 : ((((byteAt signs 3 + byteAt signs ((5 + byteAt signs 3) % 256)) % 256 + 7) % 256
      : Nat) : Int) = (signs.length : Int) := by omega
  simp only [h6, e6, not_true_eq_false, if_false]
  by_cases h7 : byteAt signs 2 = 2
  swap
  · simp only [if_pos h7]
  simp only [h7, not_true_eq_false, if_false]
  by_cases h8 : byteAt signs 3 = 0
  · simp only [if_pos h8]
  simp only [if_neg h8]
  by_cases h9 : 1 < byteAt signs 3 ∧ byteAt signs 4 = 0
  · simp only [if_pos h9, if_pos h9.1, if_pos h9.2, gt_iff_lt, GoResult.bind_ret, if_true]
  have e9 : (if byteAt signs 3 > 1 then
      if byteAt signs 4 = 0 then (ret true : GoResult Bool) else ret false
      else ret false) = ret false := by
    by_cases hp : byteAt signs 3 > 1
    · have hq : ¬ byteAt signs 4 = 0 := fun hq => h9 ⟨hp, hq⟩
      simp only [if_pos hp, if_neg hq]
    · simp only [if_neg hp]
  simp only [e9, if_neg h9, GoResult.bind_ret, Bool.false_eq_true, if_false]
  by_cases h10 : signs.length ≤ (byteAt signs 3 + 4) % 256
  · simp only [if_pos h10, index_of_le signs _ h10, GoResult.bind_panic]
  simp only [if_neg h10, index_of_lt signs _ (Nat.lt_of_not_le h10), GoResult.bind_ret]
  by_cases h11 : byteAt signs ((byteAt signs 3 + 4) % 256) = 2
  swap
  · simp only [if_pos h11]
  simp only [h11, not_true_eq_false, if_false]
  by_cases h12 : byteAt signs ((5 + byteAt signs 3) % 256) = 0
  · simp only [if_pos h12]
  simp only [if_neg h12]
  by_cases h13 : signs.length ≤ (byteAt signs 3 + 6) % 256
  · simp only [if_pos h13, index_of_le signs _ h13, GoResult.bind_panic]
  simp only [if_neg h13, index_of_lt signs _ (Nat.lt_of_not_le h13), GoResult.bind_ret]
  by_cases h14 : 1 < byteAt signs ((5 + byteAt signs 3) % 256)
      ∧ byteAt signs ((byteAt signs 3 + 6) % 256) = 0
  · have b3 := byteAt_lt signs 3
    have bS := byteAt_lt signs ((5 + byteAt signs 3) % 256)
    have h15 : (byteAt signs 3 + 7) % 256 < signs.length := by omega
    simp only [if_pos h14, if_pos h14.1, if_pos h14.2, gt_iff_lt, index_of_lt signs _ h15,
      GoResult.bind_ret, and_ret, decide_eq_true_eq, if_true]
  simp only [if_neg h14]
  by_cases hp : byteAt signs ((5 + byteAt signs 3) % 256) > 1
  · have hq : ¬ byteAt signs ((byteAt signs 3 + 6) % 256) = 0 := fun hq => h14 ⟨hp, hq⟩
    simp only [if_pos hp, if_neg hq, decide_eq_true_eq, and_ret, Bool.false_eq_true, if_false,
      GoResult.bind_ret]
  · simp only [if_neg hp, GoResult.bind_ret, Bool.false_eq_true, if_false]


/-! ## The validator as a decision tree -/

theorem IsValidSignatureEncoding_eq_verdict (signs : List Byte) :
    IsValidSignatureEncoding signs =
      verdict signs.length (byteAt signs 0) (byteAt signs 1) (byteAt signs 2) (byteAt signs 3)
        (byteAt signs 4) ((5 + byteAt signs 3) % 256)
        (byteAt signs ((5 + byteAt signs 3) % 256))
        (((byteAt signs 3 + byteAt signs ((5 + byteAt signs 3) % 256)) % 256 + 7) % 256)
        ((byteAt signs 3 + 4) % 256) (byteAt signs ((byteAt signs 3 + 4) % 256))
        ((byteAt signs 3 + 6) % 256) (byteAt signs ((byteAt signs 3 + 6) % 256)) := by
  rw [IsValidSignatureEncoding_normal]
  rfl

theorem ite_ret_false_eq_ret_true_iff (c : Prop) [Decidable c] (x : GoResult Bool) :
    ((if c then ret false else x) = ret true) ↔ (¬ c ∧ x = ret true) := by
  by_cases h : c
  · simp [h]
  · simp [h]

theorem ite_panic_eq_ret_iff (c : Prop) [Decidable c] (e : IndexOutOfRange) (v : Bool)
    (x : GoResult Bool) :
    ((if c then panic e else x) = ret v) ↔ (¬ c ∧ x = ret v) := by
  by_cases h : c
  · simp [h]
  · simp [h]

theorem ite_ret_false_eq_ret_false_iff (c : Prop) [Decidable c] (x : GoResult Bool) :
    ((if c then ret false else x) = ret false) ↔ (c ∨ x = ret false) := by
  by_cases h : c
  · simp [h]
  · simp [h]

theorem ret_true_ne_ret_false : ((ret true : GoResult Bool) = ret false) ↔ False := by
  simp

theorem verdict_eq_ret_true_iff (len b0 b1 b2 lenR b4 o5 lenS total o4 tagS o6 t0 : Nat) :
    verdict len b0 b1 b2 lenR b4 o5 lenS total o4 tagS o6 t0 = ret true ↔
      (9 ≤ len ∧ len ≤ 73 ∧ b0 = 0x30 ∧ b1 + 3 = len ∧ o5 < len ∧ total = len ∧ b2 = 0x02 ∧
        lenR ≠ 0 ∧ ¬ (1 < lenR ∧ b4 = 0) ∧ o4 < len ∧ tagS = 0x02 ∧ lenS ≠ 0 ∧ o6 < len ∧
        ¬ (1 < lenS ∧ t0 = 0)) := by
  unfold verdict
  simp only [ite_ret_false_eq_ret_true_iff, ite_panic_eq_ret_iff, and_true]
  constructor
  · intro h
    omega
  · intro h
    omega

theorem verdict_eq_ret_false_iff (len b0 b1 b2 lenR b4 o5 lenS total o4 tagS o6 t0 : Nat) :
    verdict len b0 b1 b2 lenR b4 o5 lenS total o4 tagS o6 t0 = ret false ↔
      (len < 9 ∨ 73 < len ∨ b0 ≠ 0x30 ∨ b1 + 3 ≠ len ∨ len ≤ o5 ∨ total ≠ len ∨ b2 ≠ 0x02 ∨
        lenR = 0 ∨ (1 < lenR ∧ b4 = 0) ∨
        (o4 < len ∧ (tagS ≠ 0x02 ∨ lenS = 0 ∨ (o6 < len ∧ 1 < lenS ∧ t0 = 0)))) := by
  unfold verdict
  simp only [ite_ret_false_eq_ret_false_iff, ite_panic_eq_ret_iff, ret_true_ne_ret_false,
    or_false]
  constructor
  · intro h
    omega
  · intro h
    omega

theorem IsValidSignatureEncoding_of_length (b : List Byte) (h : b.length < 9 ∨ 73 < b.length) :
    IsValidSignatureEncoding b = ret false := by
  rw [IsValidSignatureEncoding_eq_verdict, verdict_eq_ret_false_iff]
  omega

theorem IsValidSignatureEncoding_of_padR (b : List Byte) (h1 : 1 < byteAt b 3)
    (h4 : byteAt b 4 = 0) : IsValidSignatureEncoding b = ret false := by
  rw [IsValidSignatureEncoding_eq_verdict, verdict_eq_ret_false_iff]
  omega

theorem IsValidSignatureEncoding_of_padS_wrapped (b : List Byte)
    (h : RedundantPadS (fun n => n % 256) b) : IsValidSignatureEncoding b = ret false := by
  unfold RedundantPadS at h
  dsimp only at h
  obtain ⟨h3, h5, h6, h7, hS, hz, _⟩ := h
  have hc : byteAt b 3 = 251 → byteAt b ((byteAt b 3 + 6) % 256) = byteAt b 1 := by
    intro e
    rw [e]
  have b3 := byteAt_lt b 3
  have bS := byteAt_lt b ((5 + byteAt b 3) % 256)
  rw [IsValidSignatureEncoding_eq_verdict, verdict_eq_ret_false_iff]
  omega

theorem RedundantPadS_wrapped_of_id (b : List Byte) (hlen : b.length ≤ 73)
    (h : RedundantPadS id b) : RedundantPadS (fun n => n % 256) b := by
  unfold RedundantPadS at h ⊢
  simp only [id] at h
  have e5 : (5 + byteAt b 3) % 256 = 5 + byteAt b 3 := by omega
  have e6 : (byteAt b 3 + 6) % 256 = byteAt b 3 + 6 := by omega
  have e7 : (byteAt b 3 + 7) % 256 = byteAt b 3 + 7 := by omega
  simp only [e5, e6, e7]
  exact h

/-! ## Claims about `IsValidSignatureEncoding` -/

/-- Claim C1, code defect.  `IsValidSignatureEncoding` is not total: the byte-wide sum
`lenR+lenS+7` wraps, so with `lenS = 0xFF` a 9-byte input passes the length
check and the read `signs[lenR+6]` is one past the end; and with `lenR = 0xFB`
the offset `5+lenR` wraps to 0 while `lenR+4` is 255, far past the end of a
50-byte input.  Both runs end in an index-out-of-range panic. -/
theorem IsValidSignatureEncoding_index_out_of_range :
    IsValidSignatureEncoding [0x30, 0x06, 0x02, 0x03, 0x01, 0x01, 0x01, 0x02, 0xFF]
        = panic ⟨9, 9⟩ ∧
      IsValidSignatureEncoding ([0x30, 0x2F, 0x02, 0xFB, 0x01] ++ List.replicate 45 0x01)
        = panic ⟨255, 50⟩ := by
  constructor
  · decide
  · decide

/-- Claim C2.  Every byte sequence shorter than 9 bytes or longer than 73 bytes is
rejected: the call returns `false`. -/
theorem IsValidSignatureEncoding_length_outside_9_73 (b : List Byte)
    (h : b.length < 9 ∨ 73 < b.length) : IsValidSignatureEncoding b = ret false :=
  IsValidSignatureEncoding_of_length b h

theorem IsValidSignatureEncoding_length_outside_9_73_witness :
    (([0x30, 0x05, 0x02, 0x01, 0x01, 0x02, 0x01, 0x01] : List Byte).length < 9 ∨
        73 < ([0x30, 0x05, 0x02, 0x01, 0x01, 0x02, 0x01, 0x01] : List Byte).length) ∧
      IsValidSignatureEncoding [0x30, 0x05, 0x02, 0x01, 0x01, 0x02, 0x01, 0x01] = ret false :=
  ⟨by decide, IsValidSignatureEncoding_length_outside_9_73 _ (by decide)⟩

/-- Claim C3, code defect.  A first byte of R, or of S, with its sign bit set is not
rejected: the test `(x & 0x80) == 1` never holds, so these two inputs, whose R
(offset 4) respectively S (offset 7) starts with 0x80, are accepted. -/
theorem IsValidSignatureEncoding_accepts_negative_R_and_S :
    (0x80 ≤ byteAt [0x30, 0x06, 0x02, 0x01, 0x80, 0x02, 0x01, 0x01, 0x01] 4 ∧
      IsValidSignatureEncoding [0x30, 0x06, 0x02, 0x01, 0x80, 0x02, 0x01, 0x01, 0x01]
        = ret true) ∧
    (0x80 ≤ byteAt [0x30, 0x06, 0x02, 0x01, 0x01, 0x02, 0x01, 0x80, 0x01] (1 + 6) ∧
      IsValidSignatureEncoding [0x30, 0x06, 0x02, 0x01, 0x01, 0x02, 0x01, 0x80, 0x01]
        = ret true) := by
  refine ⟨⟨?_, ?_⟩, ⟨?_, ?_⟩⟩ <;> decide

/-- Claim C4, code defect.  A canonical signature whose R needs its single 0x00 pad
(the next byte is 0x80) passes all thirteen checks of the written algorithm, yet
the code returns `false`: the test `(signs[5] & 0x80) != 1` always holds, so
every R longer than one byte that starts with 0x00 is rejected. -/
theorem IsValidSignatureEncoding_rejects_required_pad :
    specIsValidSignatureEncoding [0x30, 0x07, 0x02, 0x02, 0x00, 0x80, 0x02, 0x01, 0x01, 0x01]
        = true ∧
      IsValidSignatureEncoding [0x30, 0x07, 0x02, 0x02, 0x00, 0x80, 0x02, 0x01, 0x01, 0x01]
        = ret false := by
  constructor
  · decide
  · decide

/-- Claim C5.  Non-minimal zero padding is rejected: when R, or S, has a declared
length above 1, starts with 0x00 and continues with a byte below 0x80 (all of
them inside `b`), the call returns `false`.  The S offsets may be read as
written or modulo 256 as the code computes them. -/
theorem IsValidSignatureEncoding_rejects_redundant_pad (b : List Byte)
    (h : RedundantPadR b ∨ RedundantPadS id b ∨ RedundantPadS (fun n => n % 256) b) :
    IsValidSignatureEncoding b = ret false := by
  rcases h with h | h | h
  · exact IsValidSignatureEncoding_of_padR b h.2.1 h.2.2.1
  · by_cases hlen : b.length ≤ 73
    · exact IsValidSignatureEncoding_of_padS_wrapped b (RedundantPadS_wrapped_of_id b hlen h)
    · exact IsValidSignatureEncoding_of_length b (Or.inr (by omega))
  · exact IsValidSignatureEncoding_of_padS_wrapped b h

theorem IsValidSignatureEncoding_rejects_redundant_pad_witness :
    RedundantPadS id [0x30, 0x07, 0x02, 0x01, 0x01, 0x02, 0x02, 0x00, 0x7F, 0x01] ∧
      IsValidSignatureEncoding [0x30, 0x07, 0x02, 0x01, 0x01, 0x02, 0x02, 0x00, 0x7F, 0x01]
        = ret false :=
  ⟨by unfold RedundantPadS; decide,
    IsValidSignatureEncoding_rejects_redundant_pad _
      (Or.inr (Or.inl (by unfold RedundantPadS; decide)))⟩

theorem scenarioSignature_dropLast (R S : List Byte) :
    (scenarioSignature R S).dropLast = [0x30, 0x45, 0x02, 0x21, 0x00] ++ R ++ [0x02, 0x20] ++ S := by
  unfold scenarioSignature
  rw [List.dropLast_append_of_ne_nil _ (by simp)]
  simp

/-- Claim C6 fails as stated: with R and S thirty-two bytes 0x01 (high bit clear) the
scenario bytes `30 45 02 21 00 R 02 20 S 01` are rejected, not accepted. -/
theorem scenarioSignature_not_accepted :
    (List.replicate 32 (0x01 : Byte)).length = 32 ∧
      byteAt (List.replicate 32 (0x01 : Byte)) 0 < 0x80 ∧
      IsValidSignatureEncoding
        (scenarioSignature (List.replicate 32 0x01) (List.replicate 32 0x01)) = ret false := by
  refine ⟨?_, ?_, ?_⟩ <;> decide

/-- Claim C6, amended.  For every 32-byte R and 32-byte S whose first bytes have the
high bit clear, the bytes `30 45 02 21 00 R 02 20 S 01` are rejected (the 0x00 in
front of R is a redundant pad), and the same bytes without the final byte are
rejected as well (byte 1 no longer equals the length minus 3). -/
theorem scenarioSignature_rejected (R S : List Byte) (hR : R.length = 32)
    (hS : S.length = 32) (_ : byteAt R 0 < 0x80) (_ : byteAt S 0 < 0x80) :
    IsValidSignatureEncoding (scenarioSignature R S) = ret false ∧
      IsValidSignatureEncoding (scenarioSignature R S).dropLast = ret false := by
  constructor
  · have h3 : byteAt (scenarioSignature R S) 3 = 0x21 := rfl
    have h4 : byteAt (scenarioSignature R S) 4 = 0x00 := rfl
    exact IsValidSignatureEncoding_of_padR _ (by omega) h4
  · have hlen : (scenarioSignature R S).dropLast.length = 71 := by
      rw [scenarioSignature_dropLast]
      simp [hR, hS]
    have h1 : byteAt (scenarioSignature R S).dropLast 1 = 0x45 := by
      rw [scenarioSignature_dropLast]
      rfl
    rw [IsValidSignatureEncoding_eq_verdict, verdict_eq_ret_false_iff]
    omega

theorem scenarioSignature_rejected_witness :
    IsValidSignatureEncoding
        (scenarioSignature (List.replicate 32 0x7F) (List.replicate 32 0x7F)) = ret false ∧
      IsValidSignatureEncoding
        (scenarioSignature (List.replicate 32 0x7F) (List.replicate 32 0x7F)).dropLast
          = ret false :=
  scenarioSignature_rejected (List.replicate 32 0x7F) (List.replicate 32 0x7F)
    (by decide) (by decide) (by decide) (by decide)

/-! ## Claims about the error taxonomy -/

theorem ScriptErrorString_of_not_defined (c : ScriptError) (h : c ∉ definedCodes) :
    ScriptErrorString c = "unknown error" := by
  simp only [definedCodes, List.mem_cons, List.mem_singleton, not_or, List.not_mem_nil,
    not_false_eq_true, and_true] at h
  unfold ScriptErrorString
  simp only [h, if_false]

theorem not_defined_of_out_of_range (c : ScriptError)
    (h : c < 0 ∨ ScriptErrNonCompressedPubKey < c) : c ∉ definedCodes := by
  have key : ∀ d ∈ definedCodes, ¬ (d < 0 ∨ ScriptErrNonCompressedPubKey < d) := by decide
  exact fun hmem => key c hmem h

/-- Claim C7 fails as stated: the two sentinels are distinct defined codes with the
same rendering, so `ScriptErrorString` is not injective on the defined codes. -/
theorem ScriptErrorString_sentinels_collide :
    ScriptErrUnknownError ∈ definedCodes ∧ ScriptErrErrorCount ∈ definedCodes ∧
      ScriptErrUnknownError ≠ ScriptErrErrorCount ∧
      ScriptErrorString ScriptErrUnknownError = ScriptErrorString ScriptErrErrorCount := by
  decide

/-- Claim C7, amended.  There are 43 defined codes; every defined code other than
`ScriptErrOK` is rendered as a non-empty string; and two defined codes with the
same rendering are equal unless that rendering is the fallback "unknown error". -/
theorem ScriptErrorString_nonempty_and_injective_off_fallback :
    definedCodes.length = 43 ∧
      (∀ c ∈ definedCodes, c ≠ ScriptErrOK → ScriptErrorString c ≠ "") ∧
      (∀ c1 ∈ definedCodes, ∀ c2 ∈ definedCodes,
        ScriptErrorString c1 = ScriptErrorString c2 →
          ScriptErrorString c1 ≠ "unknown error" → c1 = c2) := by
  refine ⟨?_, ?_, ?_⟩ <;> decide

theorem ScriptErrorString_nonempty_and_injective_off_fallback_witness :
    ScriptErrorString ScriptErrSigDer ≠ "" ∧ ScriptErrSigDer = (23 : ScriptError) :=
  ⟨ScriptErrorString_nonempty_and_injective_off_fallback.2.1 ScriptErrSigDer
      (by decide) (by decide),
    ScriptErrorString_nonempty_and_injective_off_fallback.2.2 ScriptErrSigDer (by decide)
      23 (by decide) (by decide) (by decide)⟩

/-- Claim C8, code defect.  `ScriptErrCleanStack` and `ScriptErrNonCompressedPubKey`
are defined enumerators, neither is a sentinel, and the `switch` has no `case`
for them: both are rendered as the fallback "unknown error". -/
theorem ScriptErrorString_missing_cases :
    (ScriptErrCleanStack ∈ definedCodes ∧ ScriptErrCleanStack ≠ ScriptErrUnknownError ∧
      ScriptErrCleanStack ≠ ScriptErrErrorCount ∧
      ScriptErrorString ScriptErrCleanStack = "unknown error") ∧
    (ScriptErrNonCompressedPubKey ∈ definedCodes ∧
      ScriptErrNonCompressedPubKey ≠ ScriptErrUnknownError ∧
      ScriptErrNonCompressedPubKey ≠ ScriptErrErrorCount ∧
      ScriptErrorString ScriptErrNonCompressedPubKey = "unknown error") := by
  decide

/-- Claim C9.  `ScriptErrorString` is a total function with fixed endpoints: "No error"
for `ScriptErrOK`, and "unknown error" for `ScriptErrUnknownError`, for
`ScriptErrErrorCount`, and for every integer that is not a defined enumerator, in
particular every negative one and every one above the largest defined code. -/
theorem ScriptErrorString_endpoints :
    ScriptErrorString ScriptErrOK = "No error" ∧
      ScriptErrorString ScriptErrUnknownError = "unknown error" ∧
      ScriptErrorString ScriptErrErrorCount = "unknown error" ∧
      ∀ c : ScriptError, (c ∉ definedCodes ∨ c < 0 ∨ ScriptErrNonCompressedPubKey < c) →
        ScriptErrorString c = "unknown error" := by
  refine ⟨by decide, by decide, by decide, ?_⟩
  intro c h
  rcases h with h | h
  · exact ScriptErrorString_of_not_defined c h
  · exact ScriptErrorString_of_not_defined c (not_defined_of_out_of_range c h)

theorem ScriptErrorString_endpoints_witness :
    ((-1 : ScriptError) ∉ definedCodes ∨ (-1 : ScriptError) < 0 ∨
        ScriptErrNonCompressedPubKey < (-1 : ScriptError)) ∧
      ScriptErrorString (-1) = "unknown error" :=
  ⟨Or.inr (Or.inl (by decide)),
    ScriptErrorString_endpoints.2.2.2 (-1) (Or.inr (Or.inl (by decide)))⟩

theorem formatDecimal_examples :
    String.mk (formatDecimal 0) = "0" ∧ String.mk (formatDecimal 23) = "23" ∧
      String.mk (formatDecimal (-7)) = "-7" ∧ String.mk (formatDecimal 1000) = "1000" := by
  decide

theorem Sprintf_script_error (desc : String) (code : Int) :
    Sprintf "script error :%s code:%d".data [FmtArg.str desc, FmtArg.int code] =
      some ("script error :".data ++ (desc.data ++ (" code:".data ++ formatDecimal code))) := by
  simp [Sprintf]

theorem formatDecimal_eq_toString (c : Int) : String.mk (formatDecimal c) = toString c := by
  cases c with
  | ofNat m =>
    have h : ¬ (Int.ofNat m < 0) := by simp
    unfold formatDecimal
    rw [if_neg h]
    rfl
  | negSucc m =>
    have h : Int.negSucc m < 0 := Int.negSucc_lt_zero m
    unfold formatDecimal
    rw [if_pos h]
    rfl

/-- Claim C10.  For every code `c`, `ScriptErr c` carries `Code = c` and
`Desc = ScriptErrorString c`, and its `Error()` text is "script error :", then the
description, then " code:", then the decimal rendering of `c` (the library's
`toString` on integers: the digits of the magnitude, after a minus sign when `c`
is negative). -/
theorem ScriptErr_carrier (c : ScriptError) :
    (ScriptErr c).Code = c ∧ (ScriptErr c).Desc = ScriptErrorString c ∧
      (ScriptErr c).Error =
        some ("script error :" ++ ScriptErrorString c ++ " code:" ++ toString c) := by
  refine ⟨rfl, rfl, ?_⟩
  unfold ErrDesc.Error ScriptErr
  rw [Sprintf_script_error, ← formatDecimal_eq_toString c]
  simp only [Option.map_some', Option.some.injEq]
  apply String.ext
  simp only [String.data_append, List.append_assoc]

theorem ScriptErr_SigDer_text :
    (ScriptErr ScriptErrSigDer).Error
      = some "script error :Non-canonical DER signature code:23" := by
  decide

/-! ## Claims about the stack -/

theorem Stack.PopStack_append_some {α : Type} (init : List (Option α)) (v : α) :
    Stack.PopStack { array := init ++ [some v] } = ((some v, none), { array := init }) := by
  unfold Stack.PopStack
  have hlen : ¬ (init ++ [some v]).length = 0 := by simp
  rw [dif_neg hlen]
  have hget : (init ++ [some v]).get ⟨(init ++ [some v]).length - 1, by simp⟩ = some v := by
    simp [List.getElem_append_right]
  have htake : (init ++ [some v]).take ((init ++ [some v]).length - 1) = init := by
    simp
  simp only [hget, htake]

theorem Stack.PopStack_append_none {α : Type} (init : List (Option α)) :
    Stack.PopStack { array := init ++ [(none : Option α)] } =
      ((none, some "value is nil"), { array := init }) := by
  unfold Stack.PopStack
  have hlen : ¬ (init ++ [(none : Option α)]).length = 0 := by simp
  rw [dif_neg hlen]
  have hget : (init ++ [(none : Option α)]).get
      ⟨(init ++ [(none : Option α)]).length - 1, by simp⟩ = none := by
    simp [List.getElem_append_right]
  have htake : (init ++ [(none : Option α)]).take
      ((init ++ [(none : Option α)]).length - 1) = init := by
    simp
  simp only [hget, htake]

theorem Stack.PopStack_nil {α : Type} :
    Stack.PopStack ({ array := [] } : Stack α) = ((none, some "stack is empty"), { array := [] }) := by
  unfold Stack.PopStack
  simp

/-- Claim C12.  The stack is LIFO: pushing a non-nil value raises `Size()` by exactly
one, and the `PopStack()` right after returns that value with a `nil` error and
leaves the stack exactly as it was before the push. -/
theorem Stack_push_then_pop {α : Type} (s : Stack α) (value : Option α)
    (hv : value ≠ none) :
    (s.PushStack value).Size = s.Size + 1 ∧
      (s.PushStack value).PopStack = ((value, none), s) := by
  obtain ⟨v, rfl⟩ := Option.ne_none_iff_exists'.mp hv
  constructor
  · simp [Stack.PushStack, Stack.Size]
  · exact Stack.PopStack_append_some s.array v

theorem Stack_push_then_pop_witness :
    ((some 7 : Option Nat) ≠ none) ∧
      (Stack.PushStack { array := [some 1, none] } (some 7)).PopStack
        = ((some 7, none), { array := [some 1, none] }) :=
  ⟨by decide, (Stack_push_then_pop { array := [some 1, none] } (some 7) (by decide)).2⟩

theorem Stack.StackTop_below_bottom {α : Type} (s : Stack α) (i : Int)
    (hmin : -(2 ^ 63 : Int) ≤ i) (hi : i < -(s.array.length : Int)) :
    s.StackTop i = StackRun.indexPanic ((s.array.length : Int) + i) s.array.length := by
  have hw : int64 ((s.array.length : Int) + i) = (s.array.length : Int) + i := by
    unfold int64
    norm_num at hmin ⊢
    omega
  unfold Stack.StackTop
  simp only [hw]
  rw [if_neg (by omega), if_pos (by omega)]

/-- Claim C15, code defect.  `StackTop` is not bounds-safe below the bottom of the
stack: its only guard is `stackLen+i > stackLen-1`, so with `i < -n` the index
expression `s.array[stackLen+i]` is evaluated with a negative index and the
call panics instead of returning an error. -/
theorem Stack_StackTop_negative_index_panics :
    (NewStack : Stack Nat).StackTop (-1) = StackRun.indexPanic (-1) 0 ∧
      Stack.StackTop ({ array := [some 7] } : Stack Nat) (-2) = StackRun.indexPanic (-1) 1 := by
  constructor
  · decide
  · decide

/-- Claim C16 fails as stated: on a stack whose last element is `nil`, `PopStack`
returns an error and the stack has nevertheless lost that element. -/
theorem Stack_PopStack_error_changes_stack :
    (Stack.PopStack ({ array := [some 1, none] } : Stack Nat)).1.2 ≠ none ∧
      (Stack.PopStack ({ array := [some 1, none] } : Stack Nat)).2
        ≠ ({ array := [some 1, none] } : Stack Nat) := by
  constructor
  · decide
  · decide

/-- Claim C16, amended.  If `PopStack()` returns an error, then either the stack was
empty and is unchanged, or its last element was `nil` and exactly that element
has been removed; if it returns no error, the stack has lost exactly its last
element, which is the returned, non-nil value. -/
theorem Stack_PopStack_outcome {α : Type} (s : Stack α) :
    (s.PopStack.1.2 ≠ none →
        (s.array = [] ∧ s.PopStack.2 = s) ∨ s.array = s.PopStack.2.array ++ [none]) ∧
      (s.PopStack.1.2 = none →
        s.PopStack.1.1 ≠ none ∧ s.array = s.PopStack.2.array ++ [s.PopStack.1.1]) := by
  obtain ⟨array⟩ := s
  rcases List.eq_nil_or_concat array with rfl | ⟨init, x, rfl⟩
  · rw [Stack.PopStack_nil]
    simp
  · rw [List.concat_eq_append]
    cases x with
    | none =>
      rw [Stack.PopStack_append_none]
      simp
    | some v =>
      rw [Stack.PopStack_append_some]
      simp

theorem Stack_PopStack_outcome_witness :
    (Stack.PopStack ({ array := [some 1, none] } : Stack Nat)).1.2 ≠ none ∧
      ((({ array := [some 1, none] } : Stack Nat).array = [] ∧
          (Stack.PopStack ({ array := [some 1, none] } : Stack Nat)).2
            = ({ array := [some 1, none] } : Stack Nat)) ∨
        ({ array := [some 1, none] } : Stack Nat).array =
          (Stack.PopStack ({ array := [some 1, none] } : Stack Nat)).2.array ++ [none]) :=
  ⟨by decide, (Stack_PopStack_outcome { array := [some 1, none] }).1 (by decide)⟩

/-! ## Claims about accepted inputs of `IsValidSignatureEncoding` -/

theorem IsValidSignatureEncoding_accepted_lenR_le (b : List Byte)
    (h : IsValidSignatureEncoding b = ret true) : byteAt b 3 ≤ 67 := by
  rw [IsValidSignatureEncoding_eq_verdict, verdict_eq_ret_true_iff] at h
  have b3 := byteAt_lt b 3
  have c252 : byteAt b 3 = 252 → byteAt b ((byteAt b 3 + 4) % 256) = byteAt b 0 :=
    fun e => by simp [e]
  have c253 : byteAt b 3 = 253 → byteAt b ((5 + byteAt b 3) % 256) = byteAt b 2 :=
    fun e => by simp [e]
  have c254 : byteAt b 3 = 254 → byteAt b ((5 + byteAt b 3) % 256) = byteAt b 3 :=
    fun e => by simp [e]
  have c255 : byteAt b 3 = 255 → byteAt b ((byteAt b 3 + 4) % 256) = byteAt b 3 :=
    fun e => by simp [e]
  omega

/-- Claim C13.  Acceptance implies the DER frame: an accepted `b`, with `lenR = b[3]`
and `lenS = b[5+lenR]` as natural numbers, has `b[0] = 0x30`, `b[1] = len(b) - 3`,
`b[2] = 0x02`, the S length inside `b`, `b[lenR+4] = 0x02`, `lenR ≥ 1`, `lenS ≥ 1`
and `lenR + lenS + 7 = len(b)` exactly, with no reduction modulo 256. -/
theorem IsValidSignatureEncoding_accepted_frame (b : List Byte)
    (h : IsValidSignatureEncoding b = ret true) :
    byteAt b 0 = 0x30 ∧ ((byteAt b 1 : Nat) : Int) = (b.length : Int) - 3 ∧
      byteAt b 2 = 0x02 ∧ 5 + byteAt b 3 < b.length ∧ byteAt b (byteAt b 3 + 4) = 0x02 ∧
      1 ≤ byteAt b 3 ∧ 1 ≤ byteAt b (5 + byteAt b 3) ∧
      byteAt b 3 + byteAt b (5 + byteAt b 3) + 7 = b.length := by
  have hR := IsValidSignatureEncoding_accepted_lenR_le b h
  rw [IsValidSignatureEncoding_eq_verdict, verdict_eq_ret_true_iff] at h
  have e5 : (5 + byteAt b 3) % 256 = 5 + byteAt b 3 := by omega
  have e4 : (byteAt b 3 + 4) % 256 = byteAt b 3 + 4 := by omega
  have e6 : (byteAt b 3 + 6) % 256 = byteAt b 3 + 6 := by omega
  simp only [e5, e4, e6] at h
  have bS := byteAt_lt b (5 + byteAt b 3)
  omega

theorem IsValidSignatureEncoding_accepted_frame_witness :
    byteAt [0x30, 0x06, 0x02, 0x01, 0x01, 0x02, 0x01, 0x01, 0x01] 0 = 0x30 ∧
      ((byteAt [0x30, 0x06, 0x02, 0x01, 0x01, 0x02, 0x01, 0x01, 0x01] 1 : Nat) : Int) =
        (([0x30, 0x06, 0x02, 0x01, 0x01, 0x02, 0x01, 0x01, 0x01] : List Byte).length : Int) - 3 ∧
      byteAt [0x30, 0x06, 0x02, 0x01, 0x01, 0x02, 0x01, 0x01, 0x01] 2 = 0x02 ∧
      5 + byteAt [0x30, 0x06, 0x02, 0x01, 0x01, 0x02, 0x01, 0x01, 0x01] 3 <
        ([0x30, 0x06, 0x02, 0x01, 0x01, 0x02, 0x01, 0x01, 0x01] : List Byte).length ∧
      byteAt [0x30, 0x06, 0x02, 0x01, 0x01, 0x02, 0x01, 0x01, 0x01]
        (byteAt [0x30, 0x06, 0x02, 0x01, 0x01, 0x02, 0x01, 0x01, 0x01] 3 + 4) = 0x02 ∧
      1 ≤ byteAt [0x30, 0x06, 0x02, 0x01, 0x01, 0x02, 0x01, 0x01, 0x01] 3 ∧
      1 ≤ byteAt [0x30, 0x06, 0x02, 0x01, 0x01, 0x02, 0x01, 0x01, 0x01]
        (5 + byteAt [0x30, 0x06, 0x02, 0x01, 0x01, 0x02, 0x01, 0x01, 0x01] 3) ∧
      byteAt [0x30, 0x06, 0x02, 0x01, 0x01, 0x02, 0x01, 0x01, 0x01] 3 +
        byteAt [0x30, 0x06, 0x02, 0x01, 0x01, 0x02, 0x01, 0x01, 0x01]
          (5 + byteAt [0x30, 0x06, 0x02, 0x01, 0x01, 0x02, 0x01, 0x01, 0x01] 3) + 7 =
        ([0x30, 0x06, 0x02, 0x01, 0x01, 0x02, 0x01, 0x01, 0x01] : List Byte).length :=
  IsValidSignatureEncoding_accepted_frame
    [0x30, 0x06, 0x02, 0x01, 0x01, 0x02, 0x01, 0x01, 0x01] (by decide)

theorem IsValidSignatureEncoding_congr (b b' : List Byte) (hl : b.length = b'.length)
    (h0 : byteAt b 0 = byteAt b' 0) (h1 : byteAt b 1 = byteAt b' 1)
    (h2 : byteAt b 2 = byteAt b' 2) (h3 : byteAt b 3 = byteAt b' 3)
    (h4 : byteAt b 4 = byteAt b' 4)
    (hS : byteAt b ((5 + byteAt b 3) % 256) = byteAt b' ((5 + byteAt b 3) % 256))
    (hT : byteAt b ((byteAt b 3 + 4) % 256) = byteAt b' ((byteAt b 3 + 4) % 256))
    (h6 : byteAt b ((byteAt b 3 + 6) % 256) = byteAt b' ((byteAt b 3 + 6) % 256)) :
    IsValidSignatureEncoding b = IsValidSignatureEncoding b' := by
  rw [IsValidSignatureEncoding_eq_verdict b, IsValidSignatureEncoding_eq_verdict b']
  rw [← h3, ← hl, ← h0, ← h1, ← h2, ← h4, ← hS, ← hT, ← h6]

theorem byteAt_wrap_agree (b b' : List Byte)
    (hfix : ∀ j, j < 6 → byteAt b j = byteAt b' j) (n : Nat) (hn : n < 262)
    (h : byteAt b n = byteAt b' n) : byteAt b (n % 256) = byteAt b' (n % 256) := by
  by_cases hlt : n < 256
  · rw [Nat.mod_eq_of_lt hlt]
    exact h
  · exact hfix _ (by omega)

/-- Claim C14.  The outcome depends on the frame only: two inputs of equal length
that agree at offsets 0 to 3, on the first two bytes of R, at the S tag, at the S
length and on the first two bytes of S have the same outcome (the same returned
value, or the same panic).  The offsets built from `lenR` may be read as written
or modulo 256 as the code computes them. -/
theorem IsValidSignatureEncoding_depends_on_frame_only (b b' : List Byte)
    (h : AgreeOnFrame id b b' ∨ AgreeOnFrame (fun n => n % 256) b b') :
    IsValidSignatureEncoding b = IsValidSignatureEncoding b' := by
  rcases h with h | h
  · unfold AgreeOnFrame at h
    simp only [id] at h
    obtain ⟨hl, h0, h1, h2, h3, h4, h5, hS, hT, h6, _⟩ := h
    have b3 := byteAt_lt b 3
    have hfix : ∀ j, j < 6 → byteAt b j = byteAt b' j := by
      intro j hj
      interval_cases j <;> assumption
    exact IsValidSignatureEncoding_congr b b' hl h0 h1 h2 h3 h4
      (byteAt_wrap_agree b b' hfix _ (by omega) hS)
      (byteAt_wrap_agree b b' hfix _ (by omega) hT)
      (byteAt_wrap_agree b b' hfix _ (by omega) h6)
  · unfold AgreeOnFrame at h
    dsimp only at h
    obtain ⟨hl, h0, h1, h2, h3, h4, _, hS, hT, h6, _⟩ := h
    exact IsValidSignatureEncoding_congr b b' hl h0 h1 h2 h3 h4 hS hT h6

theorem IsValidSignatureEncoding_depends_on_frame_only_witness :
    AgreeOnFrame id [0x30, 0x08, 0x02, 0x03, 0x01, 0x02, 0x03, 0x02, 0x01, 0x01, 0x01]
        [0x30, 0x08, 0x02, 0x03, 0x01, 0x02, 0xFF, 0x02, 0x01, 0x01, 0x01] ∧
      IsValidSignatureEncoding [0x30, 0x08, 0x02, 0x03, 0x01, 0x02, 0x03, 0x02, 0x01, 0x01, 0x01]
        = IsValidSignatureEncoding
          [0x30, 0x08, 0x02, 0x03, 0x01, 0x02, 0xFF, 0x02, 0x01, 0x01, 0x01] :=
  ⟨by unfold AgreeOnFrame; decide,
    IsValidSignatureEncoding_depends_on_frame_only _ _
      (Or.inl (by unfold AgreeOnFrame; decide))⟩

/-! ## Further claims about the error taxonomy -/

theorem ScriptErrorString_injOn_described :
    ∀ c1 ∈ definedCodes, ∀ c2 ∈ definedCodes,
      ScriptErrorString c1 = ScriptErrorString c2 →
        ScriptErrorString c1 ≠ "unknown error" → c1 = c2 := by
  decide

theorem defined_of_described (c : ScriptError)
    (h : ScriptErrorString c ≠ "unknown error") : c ∈ definedCodes := by
  by_contra hc
  exact h (ScriptErrorString_of_not_defined c hc)

/-- Claim C17.  Descriptions identify codes: two integer codes with the same rendering,
that rendering not being "unknown error", are equal. -/
theorem ScriptErrorString_identifies_code (c1 c2 : ScriptError)
    (h : ScriptErrorString c1 = ScriptErrorString c2)
    (hne : ScriptErrorString c1 ≠ "unknown error") : c1 = c2 :=
  ScriptErrorString_injOn_described c1 (defined_of_described c1 hne) c2
    (defined_of_described c2 (h ▸ hne)) h hne

theorem ScriptErrorString_identifies_code_witness :
    ScriptErrorString ScriptErrSigDer = ScriptErrorString 23 ∧
      ScriptErrorString ScriptErrSigDer ≠ "unknown error" ∧ ScriptErrSigDer = (23 : ScriptError) :=
  ⟨by decide, by decide,
    ScriptErrorString_identifies_code ScriptErrSigDer 23 (by decide) (by decide)⟩

theorem definedCodes_nodup_from_zero :
    definedCodes.Nodup ∧ ScriptErrOK = 0 ∧ ∀ c ∈ definedCodes, ScriptErrOK ≤ c := by
  refine ⟨?_, ?_, ?_⟩ <;> decide

/-- Claim C18, code defect.  The sentinel `ScriptErrErrorCount` does not bound the
enumeration: `ScriptErrNonCompressedPubKey` is declared after it, so it is a
defined enumerator other than the sentinel whose code, 42, is not below the
sentinel's 41. -/
theorem ScriptErrNonCompressedPubKey_not_below_count :
    ScriptErrNonCompressedPubKey ∈ definedCodes ∧
      ScriptErrNonCompressedPubKey ≠ ScriptErrErrorCount ∧
      ¬ ScriptErrNonCompressedPubKey < ScriptErrErrorCount := by
  decide

end Copernicus
